import Mathlib

/-!
Verification of the deterministic SEO scoring pipeline of the
blog-automation repository: keyword-density computation, heading-hierarchy
validation, Flesch readability scoring, the 16-check rule aggregator with
recommendation generation, and the sequential bulk-generation loop.

Strings are modelled as `String` / `List Char`; JavaScript numbers are
modelled as `ℚ` (the formulas involved are exact decimal arithmetic) and
`Math.round` as `⌊q + 1/2⌋` (JS rounds half toward +∞).  JavaScript `\s`
is modelled by its ASCII members and `toLowerCase` by ASCII lowercasing;
all inputs considered in the claims are ASCII.
-/

set_option maxRecDepth 100000

namespace BlogAuto

/-- JS `Math.round`: round half away toward positive infinity. -/
def jsRound (q : ℚ) : ℤ := ⌊q + 1/2⌋

/-- ASCII whitespace accepted by the JS `\s` class. -/
def isJsSpace (c : Char) : Bool :=
  c = ' ' || c = '\t' || c = '\n' || c = '\r' || c = '\x0b' || c = '\x0c'

/-- `String.prototype.toLowerCase`, ASCII fragment (via `Char.toLower`). -/
def lowerStr (s : List Char) : List Char := s.map Char.toLower

/-- `haystack.includes(needle)`: substring containment test. -/
def containsSub (needle : List Char) : List Char → Bool
  | [] => needle.isEmpty
  | c :: t => needle.isPrefixOf (c :: t) || containsSub needle t

/-- Splitter used for `content.split(/\s+/).filter(w => w.length > 0)`:
accumulates the current token in reverse. -/
def tokensAux : List Char → List Char → List (List Char)
  | [], cur => if cur.isEmpty then [] else [cur.reverse]
  | c :: t, cur =>
    if isJsSpace c then
      (if cur.isEmpty then tokensAux t [] else cur.reverse :: tokensAux t [])
    else tokensAux t (c :: cur)

/-- Non-empty whitespace-delimited tokens of a character list
(`s.split(/\s+/).filter(w => w.length > 0)`). -/
def tokens (l : List Char) : List (List Char) := tokensAux l []

/-- `s.split` on single separator characters, keeping empty segments
(the callers filter blank segments afterwards, so splitting on single
separators is equivalent to splitting on separator runs). -/
def splitByAux (p : Char → Bool) : List Char → List Char → List (List Char)
  | [], cur => [cur.reverse]
  | c :: t, cur =>
    if p c then cur.reverse :: splitByAux p t [] else splitByAux p t (c :: cur)

/-- Split a character list at every character satisfying `p`. -/
def splitBy (p : Char → Bool) (l : List Char) : List (List Char) := splitByAux p l []

/-! ## Thresholds (`src/lib/seo/optimizer.ts` constants) -/

def TARGET_KEYWORD_DENSITY_min : ℚ := 1
def TARGET_KEYWORD_DENSITY_max : ℚ := 3
def TARGET_TITLE_LENGTH_min : Nat := 30
def TARGET_TITLE_LENGTH_max : Nat := 60
def TARGET_META_DESCRIPTION_LENGTH_min : Nat := 120
def TARGET_META_DESCRIPTION_LENGTH_max : Nat := 160
def TARGET_WORD_COUNT : Nat := 2000
def TARGET_INTERNAL_LINKS_min : Nat := 3
def TARGET_INTERNAL_LINKS_max : Nat := 7
def TARGET_EXTERNAL_LINKS_min : Nat := 3
def TARGET_READABILITY_SCORE : ℚ := 60

/-! ## Data model -/

/-- A document heading `{ level, text }`. -/
structure Heading where
  level : Nat
  text : String
deriving DecidableEq

/-- An FAQ entry `{ question, answer }`. -/
structure FAQ where
  question : String
  answer : String
deriving DecidableEq

/-- An external link `{ url, text }`. -/
structure ExtLink where
  url : String
  text : String
deriving DecidableEq

/-- The 16 named boolean checks, in declaration order of the source
`SEOChecks` interface. -/
structure SEOChecks where
  keywordDensity : Bool
  keywordInTitle : Bool
  keywordInMetaDescription : Bool
  keywordInH1 : Bool
  keywordInFirstParagraph : Bool
  titleLength : Bool
  metaDescriptionLength : Bool
  headingStructure : Bool
  internalLinkCount : Bool
  externalLinkCount : Bool
  wordCount : Bool
  readabilityScore : Bool
  hasFAQs : Bool
  hasCallToAction : Bool
  hasImages : Bool
  imageAltTags : Bool
deriving DecidableEq

/-- The parameter object of `analyzeSEO`; optional fields (`?` in the
source signature) are `Option`s, with the source defaults applied inside
`analyzeSEO` (`metaDescription = ''`, `faqs = []`, `internalLinks = []`,
`externalLinks = []`). -/
structure SEOParams where
  content : String
  title : String
  metaDescription : Option String
  keyword : String
  headings : List Heading
  wordCount : Nat
  readabilityScore : ℚ
  faqs : Option (List FAQ)
  internalLinks : Option (List String)
  externalLinks : Option (List ExtLink)

/-- The `SEOAnalysis` report returned by `analyzeSEO`. -/
structure SEOAnalysis where
  score : ℤ
  checks : SEOChecks
  recommendations : List String
  keywordDensity : ℚ

/-! ## Keyword metrics -/

/-- `calculateKeywordDensity`: lowercase, split on whitespace, count tokens
containing the lowercased keyword as a substring, and round the percentage
to two decimals; `0` when there are no tokens. -/
def calculateKeywordDensity (content keyword : String) : ℚ :=
  let words := tokens (lowerStr content.data)
  let keywordLower := lowerStr keyword.data
  let keywordMatches := (words.filter (fun w => containsSub keywordLower w)).length
  if words.length = 0 then 0
  else (jsRound (((keywordMatches : ℚ) / (words.length : ℚ)) * 100 * 100) : ℚ) / 100

/-- `checkKeywordDensity`: the computed density lies in the 1–3 % target range. -/
def checkKeywordDensity (content keyword : String) : Bool :=
  let density := calculateKeywordDensity content keyword
  decide (TARGET_KEYWORD_DENSITY_min ≤ density) && decide (density ≤ TARGET_KEYWORD_DENSITY_max)

/-- First segment of `content.split(/\n\n+/)`: the prefix of the character
list up to (excluding) the first occurrence of two consecutive newlines. -/
def firstSeg : List Char → List Char
  | [] => []
  | c :: t => if c = '\n' && (t.head? == some '\n') then [] else c :: firstSeg t

/-- `checkKeywordInFirstParagraph`:
`content.split(/\n\n+/)[0] || content`, then a case-insensitive substring
test (the `||` falls back to the whole content when the first segment is
the empty — falsy — string). -/
def checkKeywordInFirstParagraph (content keyword : String) : Bool :=
  let firstParagraph := if (firstSeg content.data).isEmpty then content.data else firstSeg content.data
  containsSub (lowerStr keyword.data) (lowerStr firstParagraph)

/-! ## Structural validator -/

/-- The hierarchy walk of `validateHeadingStructure`: fail as soon as a
heading level exceeds the previous heading level plus one. -/
def walkHeadings : Nat → List Heading → Bool
  | _, [] => true
  | previousLevel, h :: t =>
    if previousLevel + 1 < h.level then false else walkHeadings h.level t

/-- `validateHeadingStructure`: non-empty, contains an H1, and the walk
starting from previous level 1 never skips a level upward. -/
def validateHeadingStructure (headings : List Heading) : Bool :=
  if headings.isEmpty then false
  else if !(headings.any (fun h => h.level == 1)) then false
  else walkHeadings 1 headings

/-- Scan for a closing `)` before any newline: the `\(.*?\)` tail of the
Markdown-image regex (JS `.` does not match `\n` or `\r`). -/
def seekClose : List Char → Bool
  | [] => false
  | c :: t =>
    if c = ')' then true
    else if c = '\n' || c = '\r' then false
    else seekClose t

/-- Scan for `](` followed by a closed parenthesis group, with no newline
inside: the `.*?\]\(.*?\)` part of the Markdown-image regex. -/
def seekBody : List Char → Bool
  | [] => false
  | c :: t =>
    if c = '\n' || c = '\r' then false
    else ((c = ']' && (t.head? == some '(')) && seekClose t.tail) || seekBody t

/-- `content.match(/!\[.*?\]\(.*?\)/g)` is non-null: some position starts a
Markdown image `![A](B)` with `A`, `B` free of line terminators. -/
def hasMdImage : List Char → Bool
  | [] => false
  | c :: t => ((c = '!') && (t.head? == some '[') && seekBody t.tail) || hasMdImage t

/-! ## Recommendation messages (literal templates of the source) -/

/-- Decimal rendering of a two-decimal rational as JS prints it
(trailing zeros dropped); used only for the density placeholder. -/
def showDensity (d : ℚ) : String :=
  let c : ℤ := ⌊d * 100⌋
  let ip := c / 100
  let fr := (c % 100).natAbs
  if fr = 0 then toString ip
  else if fr % 10 = 0 then toString ip ++ "." ++ toString (fr / 10)
  else if fr < 10 then toString ip ++ ".0" ++ toString fr
  else toString ip ++ "." ++ toString fr

def msgDensity (density : ℚ) (keyword : String) : String :=
  if density < TARGET_KEYWORD_DENSITY_min then
    "Add more mentions of \"" ++ keyword ++ "\" naturally (currently " ++ showDensity density ++ "%, aim for 1-3%)"
  else
    "Reduce keyword usage (currently " ++ showDensity density ++ "%, aim for 1-3%) to avoid keyword stuffing"

def msgTitle (keyword : String) : String :=
  "Include your keyword \"" ++ keyword ++ "\" in the title"

def msgMeta (keyword : String) : String :=
  "Add your keyword \"" ++ keyword ++ "\" to the meta description"

def msgH1 : String := "Include your keyword in the main H1 heading"

def msgFirstParagraph (keyword : String) : String :=
  "Mention \"" ++ keyword ++ "\" in the first paragraph for better SEO"

def msgTitleLength : String := "Optimize title length (30-60 characters)"

def msgMetaLength : String :=
  "Adjust meta description to 120-160 characters for optimal display"

def msgHeadingStructure : String :=
  "Fix heading structure: Use H1→H2→H3 hierarchy without skipping levels"

def msgInternalLinks : String :=
  "Add " ++ toString TARGET_INTERNAL_LINKS_min ++ "-" ++ toString TARGET_INTERNAL_LINKS_max ++ " internal links to related content"

def msgExternalLinks : String :=
  "Include at least " ++ toString TARGET_EXTERNAL_LINKS_min ++ " authoritative external links"

def msgWordCount : String :=
  "Expand content to at least " ++ toString TARGET_WORD_COUNT ++ " words for better rankings"

def msgReadability : String :=
  "Improve readability (aim for score of " ++ toString (60 : Nat) ++ "+). Use shorter sentences and simpler words."

def msgFAQ : String := "Add an FAQ section with at least 3 common questions"

def msgCTA : String := "Add a clear call-to-action at the end of the post"

def msgImages : String := "Add relevant images to make the content more engaging"

def msgAltText : String :=
  "Ensure all images have descriptive alt text for accessibility and SEO"

/-- `generateRecommendations`: one fixed-template message pushed for every
failed check, in the source order of the `if` statements. -/
def generateRecommendations (checks : SEOChecks) (density : ℚ) (keyword : String) : List String :=
  (if checks.keywordDensity then [] else [msgDensity density keyword]) ++
  (if checks.keywordInTitle then [] else [msgTitle keyword]) ++
  (if checks.keywordInMetaDescription then [] else [msgMeta keyword]) ++
  (if checks.keywordInH1 then [] else [msgH1]) ++
  (if checks.keywordInFirstParagraph then [] else [msgFirstParagraph keyword]) ++
  (if checks.titleLength then [] else [msgTitleLength]) ++
  (if checks.metaDescriptionLength then [] else [msgMetaLength]) ++
  (if checks.headingStructure then [] else [msgHeadingStructure]) ++
  (if checks.internalLinkCount then [] else [msgInternalLinks]) ++
  (if checks.externalLinkCount then [] else [msgExternalLinks]) ++
  (if checks.wordCount then [] else [msgWordCount]) ++
  (if checks.readabilityScore then [] else [msgReadability]) ++
  (if checks.hasFAQs then [] else [msgFAQ]) ++
  (if checks.hasCallToAction then [] else [msgCTA]) ++
  (if checks.hasImages then [] else [msgImages]) ++
  (if checks.imageAltTags then [] else [msgAltText])

/-! ## Rule aggregator -/

/-- `Object.values(checks)`: the 16 boolean outcomes in declaration order. -/
def checksList (c : SEOChecks) : List Bool :=
  [c.keywordDensity, c.keywordInTitle, c.keywordInMetaDescription, c.keywordInH1,
   c.keywordInFirstParagraph, c.titleLength, c.metaDescriptionLength, c.headingStructure,
   c.internalLinkCount, c.externalLinkCount, c.wordCount, c.readabilityScore,
   c.hasFAQs, c.hasCallToAction, c.hasImages, c.imageAltTags]

/-- Number of passing checks. -/
def passedCount (c : SEOChecks) : Nat := (checksList c).count true

/-- `calculateSEOScore`: `Math.round(passedChecks / totalChecks * 100)`
with `totalChecks = Object.keys(checks).length`. -/
def calculateSEOScore (c : SEOChecks) : ℤ :=
  let totalChecks := (checksList c).length
  let passedChecks := (checksList c).count true
  jsRound (((passedChecks : ℚ) / (totalChecks : ℚ)) * 100)

/-- `analyzeSEO`: evaluate the 16 checks against the artifact and target
keyword, compute density, recommendations and the aggregate score. -/
def analyzeSEO (p : SEOParams) : SEOAnalysis :=
  let metaDescription := p.metaDescription.getD ""
  let faqs := p.faqs.getD []
  let internalLinks := p.internalLinks.getD []
  let externalLinks := p.externalLinks.getD []
  let checks : SEOChecks := {
    keywordDensity := checkKeywordDensity p.content p.keyword
    keywordInTitle := containsSub (lowerStr p.keyword.data) (lowerStr p.title.data)
    keywordInMetaDescription := containsSub (lowerStr p.keyword.data) (lowerStr metaDescription.data)
    keywordInH1 := p.headings.any (fun h =>
      h.level == 1 && containsSub (lowerStr p.keyword.data) (lowerStr h.text.data))
    keywordInFirstParagraph := checkKeywordInFirstParagraph p.content p.keyword
    titleLength := decide (TARGET_TITLE_LENGTH_min ≤ p.title.length) &&
      decide (p.title.length ≤ TARGET_TITLE_LENGTH_max)
    metaDescriptionLength := decide (TARGET_META_DESCRIPTION_LENGTH_min ≤ metaDescription.length) &&
      decide (metaDescription.length ≤ TARGET_META_DESCRIPTION_LENGTH_max)
    headingStructure := validateHeadingStructure p.headings
    internalLinkCount := decide (TARGET_INTERNAL_LINKS_min ≤ internalLinks.length) &&
      decide (internalLinks.length ≤ TARGET_INTERNAL_LINKS_max)
    externalLinkCount := decide (TARGET_EXTERNAL_LINKS_min ≤ externalLinks.length)
    wordCount := decide (TARGET_WORD_COUNT ≤ p.wordCount)
    readabilityScore := decide (TARGET_READABILITY_SCORE ≤ p.readabilityScore)
    hasFAQs := decide (3 ≤ faqs.length)
    hasCallToAction := containsSub "cta".data (lowerStr p.content.data) ||
      containsSub "call to action".data (lowerStr p.content.data) ||
      containsSub "get started".data (lowerStr p.content.data) ||
      containsSub "learn more".data (lowerStr p.content.data)
    hasImages := containsSub "<img".data p.content.data || containsSub "![".data p.content.data
    imageAltTags := containsSub "alt=".data p.content.data || hasMdImage p.content.data }
  let keywordDensity := calculateKeywordDensity p.content p.keyword
  let recommendations := generateRecommendations checks keywordDensity p.keyword
  let score := calculateSEOScore checks
  { score := score, checks := checks, recommendations := recommendations,
    keywordDensity := keywordDensity }

/-! ## Readability scorer (`src/lib/ai/blog-generator.ts`) -/

/-- Vowel-class of the syllable heuristic (`[aeiouy]`). -/
def isVowelY (c : Char) : Bool :=
  c = 'a' || c = 'e' || c = 'i' || c = 'o' || c = 'u' || c = 'y'

/-- Count maximal runs of vowels, carrying whether the previous character
was a vowel (`word.match(/[aeiouy]+/g)` run count). -/
def vowelRunsAux : Bool → List Char → Nat
  | _, [] => 0
  | prevVowel, c :: t =>
    if isVowelY c then (if prevVowel then 0 else 1) + vowelRunsAux true t
    else vowelRunsAux false t

/-- Number of maximal `[aeiouy]+` runs in a word. -/
def vowelRuns (w : List Char) : Nat := vowelRunsAux false w

/-- Per-word syllable count: 1 for words of length ≤ 3, otherwise the
number of vowel runs with a minimum of 1 (`Math.max(1, matches ? matches.length : 1)`). -/
def syllablesOfWord (w : List Char) : Nat :=
  if w.length ≤ 3 then 1 else max 1 (vowelRuns w)

/-- `countSyllables`: lowercase, replace non-letters by spaces, split on
whitespace, and sum the per-word syllable counts. -/
def countSyllables (text : String) : Nat :=
  let cleaned := (lowerStr text.data).map (fun c => if 'a' ≤ c ∧ c ≤ 'z' then c else ' ')
  ((tokens cleaned).map syllablesOfWord).sum

/-- Sentences of `calculateReadability`:
`text.split(/[.!?]+/).filter(s => s.trim().length > 0)`.  The filter keeps
exactly the segments containing a non-whitespace character, so splitting at
single separator characters (which only adds blank segments relative to
splitting on separator runs) yields the same filtered list. -/
def sentenceSegs (text : String) : List (List Char) :=
  (splitBy (fun c => c = '.' || c = '!' || c = '?') text.data).filter
    (fun s => s.any (fun c => !(isJsSpace c)))

/-- `calculateReadability`: Flesch Reading Ease, rounded, then clamped to
`[0, 100]` (`Math.max(0, Math.min(100, Math.round(score)))`); `0` when
there are no sentences or no words. -/
def calculateReadability (text : String) : ℤ :=
  let sentences := sentenceSegs text
  let words := tokens text.data
  let syllables := countSyllables text
  if sentences.length = 0 ∨ words.length = 0 then 0
  else
    let avgSentenceLength : ℚ := (words.length : ℚ) / (sentences.length : ℚ)
    let avgSyllablesPerWord : ℚ := (syllables : ℚ) / (words.length : ℚ)
    max 0 (min 100 (jsRound (206.835 - 1.015 * avgSentenceLength - 84.6 * avgSyllablesPerWord)))

/-- Claim-side readability contract: the Flesch formula over the same
sentence/word/syllable statistics, clamped to `[0,100]` and then rounded,
with the zero-sentences/zero-words guard returning 0. -/
def readabilitySpec (text : String) : ℤ :=
  let sentences := sentenceSegs text
  let words := tokens text.data
  let syllables := countSyllables text
  if sentences.length = 0 ∨ words.length = 0 then 0
  else
    jsRound (max 0 (min 100
      (206.835 - 1.015 * ((words.length : ℚ) / (sentences.length : ℚ))
        - 84.6 * ((syllables : ℚ) / (words.length : ℚ)))))

/-! ## Claim-side specifications for the keyword metrics -/

/-- Round to two decimals (`Math.round(x * 100) / 100`). -/
def roundTo2 (q : ℚ) : ℚ := (jsRound (q * 100) : ℚ) / 100

/-- Claim-side density contract: percentage of whitespace tokens containing
the lowercased keyword, rounded to two decimals, `0` on zero tokens. -/
def densitySpec (content keyword : String) : ℚ :=
  let words := tokens (lowerStr content.data)
  let keywordMatches := (words.filter (fun w => containsSub (lowerStr keyword.data) w)).length
  if words = [] then 0
  else roundTo2 (((keywordMatches : ℚ) / (words.length : ℚ)) * 100)

/-- Whether the content contains a blank-line separator at all (whether
`split(/\n\n+/)` produces more than one segment). -/
def blankSplittable (content : String) : Bool := containsSub ['\n', '\n'] content.data

/-- Claim-side first paragraph: the first segment of the split on blank
lines, or the whole content when the content is unsplittable. -/
def specFirstParagraph (content : String) : List Char :=
  if blankSplittable content then firstSeg content.data else content.data

/-- The first-paragraph keyword check exactly as the claim words it: the
first segment (whole content only when unsplittable), case-insensitive
substring test. -/
def specKeywordInFirstParagraph (content keyword : String) : Bool :=
  containsSub (lowerStr keyword.data) (lowerStr (specFirstParagraph content))

/-- The amended first-paragraph contract: as the claim, but falling back to
the whole content whenever the first segment is empty (in particular when
the content starts with a blank-line separator). -/
def amendedKeywordInFirstParagraph (content keyword : String) : Bool :=
  let fs := specFirstParagraph content
  containsSub (lowerStr keyword.data) (lowerStr (if fs = [] then content.data else fs))

/-! ## Claim-side check/message table for the recommendations -/

/-- One failed check contributes its message; a passed check contributes
nothing. -/
def failMsg (bm : Bool × String) : Option String :=
  if bm.1 then none else some bm.2

/-- The 16 checks paired with their failure messages, in declaration order
(`keywordDensity` first, `imageAltTags` last). -/
def checkMsgList (c : SEOChecks) (density : ℚ) (keyword : String) : List (Bool × String) :=
  [(c.keywordDensity, msgDensity density keyword),
   (c.keywordInTitle, msgTitle keyword),
   (c.keywordInMetaDescription, msgMeta keyword),
   (c.keywordInH1, msgH1),
   (c.keywordInFirstParagraph, msgFirstParagraph keyword),
   (c.titleLength, msgTitleLength),
   (c.metaDescriptionLength, msgMetaLength),
   (c.headingStructure, msgHeadingStructure),
   (c.internalLinkCount, msgInternalLinks),
   (c.externalLinkCount, msgExternalLinks),
   (c.wordCount, msgWordCount),
   (c.readabilityScore, msgReadability),
   (c.hasFAQs, msgFAQ),
   (c.hasCallToAction, msgCTA),
   (c.hasImages, msgImages),
   (c.imageAltTags, msgAltText)]

/-! ## Bulk generation (`generateBulkPosts`) -/

/-- One topic of the bulk request (`{ topic, keyword, tone? }`). -/
structure TopicItem where
  topic : String
  keyword : String
  tone : Option String
deriving DecidableEq

/-- Per-item outcome pushed by the loop: `{ success: true, post }` or
`{ success: false, topic, error }`. -/
inductive BulkResult (π ε : Type) where
  | ok (post : π)
  | err (topic : String) (error : ε)
deriving DecidableEq

/-- The body of one loop iteration: try the generation, catching a failure
into a failure record echoing the topic. -/
def bulkStep {π ε : Type} (gen : TopicItem → Except ε π) (item : TopicItem) : BulkResult π ε :=
  match gen item with
  | .ok post => .ok post
  | .error e => .err item.topic e

/-- `generateBulkPosts` over an abstract generation adapter `gen` (the
external model call, which may fail): the sequential `for` loop pushing one
tagged result per topic, continuing past failures. -/
def generateBulkPosts {π ε : Type} (gen : TopicItem → Except ε π) :
    List TopicItem → List (BulkResult π ε)
  | [] => []
  | item :: rest =>
    (match gen item with
     | .ok post => .ok post
     | .error e => .err item.topic e) :: generateBulkPosts gen rest

/-- Concrete 3-topic batch for the bulk scenario. -/
def demoTopics : List TopicItem := [⟨"t1", "k1", none⟩, ⟨"t2", "k2", none⟩, ⟨"t3", "k3", none⟩]

/-- Concrete adapter failing exactly on the second topic. -/
def demoGen : TopicItem → Except String String := fun item =>
  if item.topic = "t2" then Except.error "generation failed" else Except.ok item.topic

/-! ## Concrete artifacts for the end-to-end and degenerate scenarios -/

/-- 50 whitespace tokens, exactly one containing `seo` (density 2 %), a
`learn more` call-to-action, and one Markdown image. -/
def demoContent : String := "Boost your SEO with this guide. Learn more about ranking. ![chart](img.png) Get going now and write well for happy readers. We cover links, titles, and meta text. Relax and enjoy the read. One two three four five six seven eight nine ten eleven twelve thirteen fourteen fifteen sixteen seventeen eighteen."

/-- 45 characters, contains the keyword. -/
def demoTitle : String := "The Complete SEO Guide for Modern Marketers!!"

/-- 140 characters, contains the keyword. -/
def demoMeta : String := "Learn how to improve your seo ranking with proven on page techniques, covering keywords, links, readability, and structure for real results."

/-- The all-passing artifact of the first end-to-end scenario. -/
def demoParamsA : SEOParams := {
  content := demoContent
  title := demoTitle
  metaDescription := some demoMeta
  keyword := "seo"
  headings := [⟨1, "SEO Guide"⟩, ⟨2, "Getting Started"⟩]
  wordCount := 2200
  readabilityScore := 70
  faqs := some [⟨"Q1", "A1"⟩, ⟨"Q2", "A2"⟩, ⟨"Q3", "A3"⟩]
  internalLinks := some ["/a", "/b", "/c", "/d", "/e"]
  externalLinks := some [⟨"https://x.com", "x"⟩, ⟨"https://y.com", "y"⟩,
    ⟨"https://z.com", "z"⟩, ⟨"https://w.com", "w"⟩] }

/-- The second scenario: the same artifact with 500 words and no FAQs. -/
def demoParamsB : SEOParams := { demoParamsA with wordCount := 500, faqs := some [] }

/-- The fully degenerate artifact: empty content, title, headings and
links, absent meta description and FAQs, zero word count. -/
def emptyParams (keyword : String) : SEOParams :=
  ⟨"", "", none, keyword, [], 0, 0, none, none, none⟩

/-- Artifact with empty keyword, one H1 and two content tokens. -/
def demoEmptyKw : SEOParams :=
  ⟨"hello world", "t", none, "", [⟨1, "x"⟩], 0, 0, none, none, none⟩

/-! ## Arithmetic toolkit for `jsRound` -/

lemma jsRound_intCast (n : ℤ) : jsRound (n : ℚ) = n := by
  unfold jsRound
  rw [Int.floor_eq_iff]
  constructor <;> linarith

lemma jsRound_nonneg (q : ℚ) (h : 0 ≤ q) : 0 ≤ jsRound q := by
  unfold jsRound
  rw [Int.le_floor]
  push_cast
  linarith

lemma jsRound_le_of_le (q : ℚ) (n : ℤ) (h : q ≤ (n : ℚ)) : jsRound q ≤ n := by
  have h2 := jsRound_intCast n
  unfold jsRound at h2 ⊢
  exact le_trans (Int.floor_mono (by linarith)) (le_of_eq h2)

lemma le_jsRound_of_le (n : ℤ) (q : ℚ) (h : (n : ℚ) ≤ q) : n ≤ jsRound q := by
  unfold jsRound
  rw [Int.le_floor]
  linarith

/-! ## The aggregate score -/

lemma calculateSEOScore_eq (c : SEOChecks) :
    calculateSEOScore c = jsRound (100 * (passedCount c : ℚ) / 16) := by
  unfold calculateSEOScore passedCount
  have hlen : (checksList c).length = 16 := rfl
  rw [hlen]
  ring_nf

lemma passedCount_le (c : SEOChecks) : passedCount c ≤ 16 := by
  have h := List.count_le_length true (checksList c)
  simpa using h

/-- Claim C1: for every artifact and keyword, the score returned by
`analyzeSEO` equals `round(100 * passed_count / total_checks)` with
`total_checks = 16`, and therefore lies in `[0, 100]`. -/
theorem seo_score_invariant (p : SEOParams) :
    (analyzeSEO p).score = jsRound (100 * (passedCount (analyzeSEO p).checks : ℚ) / 16) ∧
    (checksList (analyzeSEO p).checks).length = 16 ∧
    0 ≤ (analyzeSEO p).score ∧ (analyzeSEO p).score ≤ 100 := by
  have hs : (analyzeSEO p).score = calculateSEOScore (analyzeSEO p).checks := rfl
  have hc : (passedCount (analyzeSEO p).checks : ℚ) ≤ 16 := by
    exact_mod_cast passedCount_le (analyzeSEO p).checks
  refine ⟨by rw [hs, calculateSEOScore_eq], rfl, ?_, ?_⟩
  · rw [hs, calculateSEOScore_eq]
    apply jsRound_nonneg
    positivity
  · rw [hs, calculateSEOScore_eq]
    apply jsRound_le_of_le
    push_cast
    rw [div_le_iff₀ (by norm_num : (0:ℚ) < 16)]
    linarith

/-- Claim C1 witness at a concrete artifact. -/
theorem seo_score_invariant_witness :
    (analyzeSEO (emptyParams "seo")).score =
      jsRound (100 * (passedCount (analyzeSEO (emptyParams "seo")).checks : ℚ) / 16) ∧
    (checksList (analyzeSEO (emptyParams "seo")).checks).length = 16 ∧
    0 ≤ (analyzeSEO (emptyParams "seo")).score ∧
    (analyzeSEO (emptyParams "seo")).score ≤ 100 :=
  seo_score_invariant (emptyParams "seo")

/-! ## Keyword density -/

/-- Claim C5: `calculateKeywordDensity` matches the two-decimal rounded
percentage contract, lies in `[0, 100]`, and is deterministic. -/
theorem keyword_density_spec (content keyword : String) :
    calculateKeywordDensity content keyword = densitySpec content keyword ∧
    0 ≤ calculateKeywordDensity content keyword ∧
    calculateKeywordDensity content keyword ≤ 100 ∧
    calculateKeywordDensity content keyword = calculateKeywordDensity content keyword := by
  refine ⟨?_, ?_, ?_, rfl⟩
  · unfold calculateKeywordDensity densitySpec roundTo2
    simp only [List.length_eq_zero]
  · unfold calculateKeywordDensity
    by_cases h : (tokens (lowerStr content.data)).length = 0
    · simp [h]
    · simp only [h, if_false]
      apply div_nonneg _ (by norm_num)
      have : (0:ℤ) ≤ jsRound
          ((((tokens (lowerStr content.data)).filter
              (fun w => containsSub (lowerStr keyword.data) w)).length : ℚ) /
            ((tokens (lowerStr content.data)).length : ℚ) * 100 * 100) := by
        apply jsRound_nonneg
        positivity
      exact_mod_cast this
  · unfold calculateKeywordDensity
    by_cases h : (tokens (lowerStr content.data)).length = 0
    · simp [h]
    · simp only [h, if_false]
      rw [div_le_iff₀ (by norm_num : (0:ℚ) < 100)]
      have hml : ((tokens (lowerStr content.data)).filter
          (fun w => containsSub (lowerStr keyword.data) w)).length ≤
          (tokens (lowerStr content.data)).length :=
        List.length_filter_le _ _
      have hpos : (0:ℚ) < ((tokens (lowerStr content.data)).length : ℚ) := by
        have : 0 < (tokens (lowerStr content.data)).length := Nat.pos_of_ne_zero h
        exact_mod_cast this
      have harg : (((tokens (lowerStr content.data)).filter
          (fun w => containsSub (lowerStr keyword.data) w)).length : ℚ) /
          ((tokens (lowerStr content.data)).length : ℚ) * 100 * 100 ≤ ((10000:ℤ) : ℚ) := by
        have hdiv : (((tokens (lowerStr content.data)).filter
            (fun w => containsSub (lowerStr keyword.data) w)).length : ℚ) /
            ((tokens (lowerStr content.data)).length : ℚ) ≤ 1 := by
          rw [div_le_one hpos]
          exact_mod_cast hml
        push_cast
        nlinarith
      have := jsRound_le_of_le _ _ harg
      have hcast : ((jsRound (((((tokens (lowerStr content.data)).filter
          (fun w => containsSub (lowerStr keyword.data) w)).length : ℚ)) /
          ((tokens (lowerStr content.data)).length : ℚ) * 100 * 100)) : ℚ) ≤ 10000 := by
        exact_mod_cast this
      linarith

/-! ## Heading structure -/

lemma walkHeadings_iff (hs : List Heading) : ∀ prev : Nat, walkHeadings prev hs = true ↔
    List.Chain (fun a b => b ≤ a + 1) prev (hs.map Heading.level) := by
  induction hs with
  | nil => intro prev; simp [walkHeadings]
  | cons h t ih =>
    intro prev
    simp only [walkHeadings, List.map_cons, List.chain_cons]
    by_cases hgt : prev + 1 < h.level
    · rw [if_pos hgt]
      constructor
      · intro hfalse; exact absurd hfalse (by simp)
      · rintro ⟨h1, -⟩; omega
    · rw [if_neg hgt, ih h.level]
      constructor
      · intro hc; exact ⟨by omega, hc⟩
      · rintro ⟨-, hc⟩; exact hc

/-- Claim C3: `validateHeadingStructure` returns true exactly for non-empty
heading lists containing an H1 whose level sequence, walked from an assumed
previous level of 1, never increases by more than one at a step; plus the
five concrete examples of the claim. -/
theorem heading_structure_spec :
    (∀ hs : List Heading, validateHeadingStructure hs = true ↔
      (hs ≠ [] ∧ (∃ h ∈ hs, h.level = 1) ∧
        List.Chain (fun a b => b ≤ a + 1) 1 (hs.map Heading.level))) ∧
    validateHeadingStructure [] = false ∧
    validateHeadingStructure [⟨1, "a"⟩] = true ∧
    validateHeadingStructure [⟨1, "a"⟩, ⟨3, "b"⟩] = false ∧
    validateHeadingStructure [⟨1, "a"⟩, ⟨2, "b"⟩, ⟨1, "c"⟩, ⟨2, "d"⟩] = true ∧
    validateHeadingStructure [⟨2, "a"⟩] = false := by
  refine ⟨?_, by decide, by decide, by decide, by decide, by decide⟩
  intro hs
  unfold validateHeadingStructure
  rcases hs with _ | ⟨h, t⟩
  · simp
  · rw [List.isEmpty_cons, if_neg (by simp)]
    by_cases hH1 : (h :: t).any (fun x => x.level == 1) = true
    · rw [hH1]
      simp only [Bool.not_true, Bool.false_eq_true, if_false]
      rw [walkHeadings_iff]
      simp only [List.any_eq_true, beq_iff_eq] at hH1
      constructor
      · intro hw
        exact ⟨by simp, by simpa using hH1, hw⟩
      · rintro ⟨-, -, hw⟩; exact hw
    · rw [Bool.not_eq_true] at hH1
      rw [hH1]
      simp only [Bool.not_false, if_true]
      constructor
      · intro hfalse; exact absurd hfalse (by simp)
      · rintro ⟨-, hex, -⟩
        rw [Bool.eq_false_iff] at hH1
        exact absurd (by simpa [List.any_eq_true] using hex) hH1

/-! ## Recommendations -/

lemma filterMap_failMsg_cons (b : Bool) (m : String) (l : List (Bool × String)) :
    List.filterMap failMsg ((b, m) :: l) =
      (if b then [] else [m]) ++ List.filterMap failMsg l := by
  cases b <;> simp [failMsg]

lemma genRecs_eq_filterMap (c : SEOChecks) (density : ℚ) (keyword : String) :
    generateRecommendations c density keyword =
      List.filterMap failMsg (checkMsgList c density keyword) := by
  simp only [checkMsgList, filterMap_failMsg_cons, List.filterMap_nil, List.append_nil]
  unfold generateRecommendations
  simp only [List.append_assoc]

lemma filterMap_failMsg_length (l : List (Bool × String)) :
    (List.filterMap failMsg l).length = l.length - (l.map Prod.fst).count true := by
  induction l with
  | nil => simp
  | cons bm t ih =>
    obtain ⟨b, m⟩ := bm
    have hct : (t.map Prod.fst).count true ≤ t.length := by
      have := List.count_le_length true (t.map Prod.fst)
      simpa using this
    cases b
    · simp [failMsg, ih, List.count_cons]
      omega
    · simp [failMsg, ih, List.count_cons]

lemma map_fst_checkMsgList (c : SEOChecks) (density : ℚ) (keyword : String) :
    (checkMsgList c density keyword).map Prod.fst = checksList c := rfl

/-- Claim C2: the recommendations returned by `analyzeSEO` are exactly one
message per failed check, taken from the fixed check/message table in
declaration order, so their number is 16 minus the passed-check count. -/
theorem recommendations_invariant (p : SEOParams) :
    (analyzeSEO p).recommendations =
      List.filterMap failMsg
        (checkMsgList (analyzeSEO p).checks (analyzeSEO p).keywordDensity p.keyword) ∧
    (analyzeSEO p).recommendations.length = 16 - passedCount (analyzeSEO p).checks := by
  have hrec : (analyzeSEO p).recommendations =
      generateRecommendations (analyzeSEO p).checks (analyzeSEO p).keywordDensity p.keyword := rfl
  constructor
  · rw [hrec, genRecs_eq_filterMap]
  · rw [hrec, genRecs_eq_filterMap, filterMap_failMsg_length, map_fst_checkMsgList]
    rfl

/-- Claim C2 witness at a concrete artifact. -/
theorem recommendations_invariant_witness :
    (analyzeSEO (emptyParams "kw")).recommendations =
      List.filterMap failMsg
        (checkMsgList (analyzeSEO (emptyParams "kw")).checks
          (analyzeSEO (emptyParams "kw")).keywordDensity (emptyParams "kw").keyword) ∧
    (analyzeSEO (emptyParams "kw")).recommendations.length =
      16 - passedCount (analyzeSEO (emptyParams "kw")).checks :=
  recommendations_invariant (emptyParams "kw")

/-! ## Readability -/

lemma jsRound_clamp (q : ℚ) :
    max 0 (min 100 (jsRound q)) = jsRound (max 0 (min 100 q)) := by
  rcases le_total (100 : ℚ) q with h100 | h100
  · rw [min_eq_left h100, max_eq_right (by norm_num : (0:ℚ) ≤ 100)]
    have h3 : jsRound ((100:ℤ) : ℚ) = 100 := jsRound_intCast 100
    push_cast at h3
    rw [h3]
    have h4 : (100:ℤ) ≤ jsRound q := le_jsRound_of_le 100 q (by push_cast; linarith)
    rw [min_eq_left h4]
    norm_num
  · rcases le_total q 0 with h0 | h0
    · rw [min_eq_right (by linarith : q ≤ (100:ℚ)), max_eq_left h0]
      have h3 : jsRound ((0:ℤ) : ℚ) = 0 := jsRound_intCast 0
      push_cast at h3
      rw [h3]
      have h4 : jsRound q ≤ 0 := jsRound_le_of_le q 0 (by push_cast; linarith)
      rw [min_eq_right (by omega : jsRound q ≤ (100:ℤ)), max_eq_left h4]
    · rw [min_eq_right h100, max_eq_right h0]
      have h4 : (0:ℤ) ≤ jsRound q := jsRound_nonneg q h0
      have h5 : jsRound q ≤ 100 := jsRound_le_of_le q 100 (by push_cast; linarith)
      rw [min_eq_right h5, max_eq_right h4]

/-- Claim C4: the readability score is the Flesch formula over the
sentence/word/syllable statistics, clamped to `[0,100]` and rounded, with
zero sentences or zero words giving 0; in particular the empty string
scores 0. -/
theorem readability_spec_correct :
    (∀ text : String, calculateReadability text = readabilitySpec text) ∧
    calculateReadability "" = 0 := by
  constructor
  · intro text
    unfold calculateReadability readabilitySpec
    by_cases h : (sentenceSegs text).length = 0 ∨ (tokens text.data).length = 0
    · rw [if_pos h, if_pos h]
    · rw [if_neg h, if_neg h]
      exact jsRound_clamp _
  · decide

/-! ## Bulk generation -/

lemma generateBulkPosts_eq_map {π ε : Type} (gen : TopicItem → Except ε π)
    (topics : List TopicItem) :
    generateBulkPosts gen topics = topics.map (bulkStep gen) := by
  induction topics with
  | nil => rfl
  | cons item rest ih =>
    simp only [generateBulkPosts, List.map_cons, ih]
    rfl

/-- Claim C8: `generateBulkPosts` processes the topic list sequentially in
input order, continuing past failures: the result has the length and order
of the input with each item tagged by its own generation outcome (failures
echo the topic); in particular for three topics with the second failing,
items 1 and 3 succeed and item 2 is the tagged failure. -/
theorem bulk_posts_spec :
    (∀ (π ε : Type) (gen : TopicItem → Except ε π) (topics : List TopicItem),
      (generateBulkPosts gen topics).length = topics.length ∧
      ∀ i : Nat, (generateBulkPosts gen topics)[i]? = (topics[i]?).map (bulkStep gen)) ∧
    generateBulkPosts demoGen demoTopics =
      [BulkResult.ok "t1", BulkResult.err "t2" "generation failed", BulkResult.ok "t3"] := by
  constructor
  · intro π ε gen topics
    constructor
    · rw [generateBulkPosts_eq_map]
      simp
    · intro i
      rw [generateBulkPosts_eq_map]
      simp [List.getElem?_map]
  · rfl

/-! ## First paragraph: the C9 divergence -/

lemma isPrefixOf_newlines (t : List Char) :
    List.isPrefixOf ['\n', '\n'] ('\n' :: '\n' :: t) = true := by
  simp [List.isPrefixOf]

lemma firstSeg_of_no_blank (l : List Char)
    (h : containsSub ['\n', '\n'] l = false) : firstSeg l = l := by
  induction l with
  | nil => rfl
  | cons c t ih =>
    rw [containsSub] at h
    rw [Bool.or_eq_false_iff] at h
    obtain ⟨hpre, hrest⟩ := h
    rw [firstSeg]
    have hcond : (c = '\n' && (t.head? == some '\n')) = false := by
      rcases hc : (c = '\n' : Bool) with _ | _
      · simp [hc]
      · rcases ht : (t.head? == some '\n') with _ | _
        · simp [ht]
        · exfalso
          have hc2 : c = '\n' := by simpa using hc
          rcases t with _ | ⟨c2, t2⟩
          · simp at ht
          · have hc3 : c2 = '\n' := by simpa using ht
            subst hc2; subst hc3
            rw [isPrefixOf_newlines] at hpre
            exact absurd hpre (by simp)
    rw [hcond]
    simp only [Bool.false_eq_true, if_false]
    rw [ih hrest]

/-- Claim C9 counterexample: on content beginning with a blank-line
separator the code falls back to searching the whole content (the first
segment is the empty string, which is falsy), while the claim as stated
searches the first segment and finds nothing. -/
theorem first_paragraph_counterexample :
    checkKeywordInFirstParagraph "\n\nseo here" "seo" = true ∧
    specKeywordInFirstParagraph "\n\nseo here" "seo" = false := by
  constructor <;> decide

/-- Claim C9 amended: the check takes the first blank-line-split segment,
falling back to the whole content when that first segment is empty (in
particular when the content is unsplittable or starts with a blank-line
separator), and tests case-insensitive keyword containment there. -/
theorem first_paragraph_amended (content keyword : String) :
    checkKeywordInFirstParagraph content keyword =
      amendedKeywordInFirstParagraph content keyword := by
  unfold checkKeywordInFirstParagraph amendedKeywordInFirstParagraph specFirstParagraph
  by_cases hsp : blankSplittable content = true
  · rw [if_pos hsp]
    rcases hfs : firstSeg content.data with _ | ⟨c, t⟩
    · simp [hfs]
    · simp [hfs]
  · rw [Bool.not_eq_true] at hsp
    simp only [hsp, Bool.false_eq_true, if_false]
    have hfs : firstSeg content.data = content.data := firstSeg_of_no_blank content.data hsp
    rw [hfs]
    simp only [ite_self]

/-! ## Degenerate inputs -/

lemma containsSub_nil_left (l : List Char) : containsSub [] l = true := by
  induction l with
  | nil => rfl
  | cons c t ih => simp [containsSub, List.isPrefixOf, ih]

lemma containsSub_nil_right (needle : List Char) (h : needle ≠ []) :
    containsSub needle [] = false := by
  rw [containsSub]
  simpa using h

lemma data_ne_nil (s : String) (h : s ≠ "") : s.data ≠ [] := by
  intro hnil
  apply h
  cases s with
  | mk l =>
    have hl : l = [] := hnil
    subst hl
    rfl

/-- Claim C7: on the fully degenerate artifact (empty content, title,
headings and links, absent meta description and FAQs, zero word count)
`analyzeSEO` returns a report rather than failing: all 16 checks are false
(in particular `imageAltTags` is false, not an error), the score is 0 and
the keyword density is 0. -/
theorem analyzeSEO_total_empty (keyword : String) (h : keyword ≠ "") :
    checksList (analyzeSEO (emptyParams keyword)).checks =
      [false, false, false, false, false, false, false, false,
       false, false, false, false, false, false, false, false] ∧
    (analyzeSEO (emptyParams keyword)).score = 0 ∧
    (analyzeSEO (emptyParams keyword)).keywordDensity = 0 ∧
    (analyzeSEO (emptyParams keyword)).checks.imageAltTags = false := by
  have hlow : lowerStr keyword.data ≠ [] := by
    intro hnil
    exact data_ne_nil keyword h (by simpa [lowerStr] using hnil)
  have hsub : containsSub (lowerStr keyword.data) [] = false :=
    containsSub_nil_right _ hlow
  have hlist : checksList (analyzeSEO (emptyParams keyword)).checks =
      [false, false, false, false, false, false, false, false,
       false, false, false, false, false, false, false, false] := by
    simp only [checksList, List.cons.injEq, and_true]
    refine ⟨rfl, hsub, hsub, rfl, hsub, rfl, rfl, rfl, rfl, rfl, rfl, rfl, rfl, rfl, rfl, rfl⟩
  refine ⟨hlist, ?_, rfl, rfl⟩
  have hp : passedCount (analyzeSEO (emptyParams keyword)).checks = 0 := by
    unfold passedCount
    rw [hlist]
    rfl
  have hs : (analyzeSEO (emptyParams keyword)).score =
      calculateSEOScore (analyzeSEO (emptyParams keyword)).checks := rfl
  rw [hs, calculateSEOScore_eq, hp]
  norm_num [jsRound, Int.floor_eq_iff]

/-- Claim C7 witness at the concrete keyword `seo`. -/
theorem analyzeSEO_total_empty_witness :
    checksList (analyzeSEO (emptyParams "seo")).checks =
      [false, false, false, false, false, false, false, false,
       false, false, false, false, false, false, false, false] ∧
    (analyzeSEO (emptyParams "seo")).score = 0 ∧
    (analyzeSEO (emptyParams "seo")).keywordDensity = 0 ∧
    (analyzeSEO (emptyParams "seo")).checks.imageAltTags = false :=
  analyzeSEO_total_empty "seo" (by decide)

/-! ## Empty keyword -/

/-- Claim C10: with the empty keyword, the title, meta-description and
first-paragraph checks pass for every artifact, the H1 check holds exactly
when some heading has level 1, and content with at least one token has
density 100, so the density range check fails. -/
theorem empty_keyword_behavior (p : SEOParams) (h : p.keyword = "") :
    (analyzeSEO p).checks.keywordInTitle = true ∧
    (analyzeSEO p).checks.keywordInMetaDescription = true ∧
    (analyzeSEO p).checks.keywordInFirstParagraph = true ∧
    ((analyzeSEO p).checks.keywordInH1 = true ↔ ∃ hd ∈ p.headings, hd.level = 1) ∧
    (tokens (lowerStr p.content.data) ≠ [] →
      calculateKeywordDensity p.content "" = 100 ∧
      (analyzeSEO p).checks.keywordDensity = false) := by
  have hklow : lowerStr p.keyword.data = [] := by rw [h]; rfl
  have hdens : tokens (lowerStr p.content.data) ≠ [] →
      calculateKeywordDensity p.content "" = 100 := by
    intro ht
    have hfil : (tokens (lowerStr p.content.data)).filter
        (fun w => containsSub (lowerStr ("" : String).data) w) =
        tokens (lowerStr p.content.data) :=
      List.filter_eq_self.mpr (fun a _ => containsSub_nil_left a)
    have hlen : (tokens (lowerStr p.content.data)).length ≠ 0 := by
      simpa [List.length_eq_zero] using ht
    simp only [calculateKeywordDensity, hfil]
    rw [if_neg hlen]
    have hql : ((tokens (lowerStr p.content.data)).length : ℚ) ≠ 0 := by
      exact_mod_cast hlen
    rw [div_self hql]
    have h10000 : jsRound ((10000:ℤ) : ℚ) = 10000 := jsRound_intCast 10000
    push_cast at h10000
    rw [show (1:ℚ) * 100 * 100 = 10000 by norm_num, h10000]
    norm_num
  refine ⟨?_, ?_, ?_, ?_, ?_⟩
  · show containsSub (lowerStr p.keyword.data) (lowerStr p.title.data) = true
    rw [hklow]
    exact containsSub_nil_left _
  · show containsSub (lowerStr p.keyword.data) (lowerStr (p.metaDescription.getD "").data) = true
    rw [hklow]
    exact containsSub_nil_left _
  · show checkKeywordInFirstParagraph p.content p.keyword = true
    unfold checkKeywordInFirstParagraph
    rw [hklow]
    exact containsSub_nil_left _
  · show (p.headings.any (fun hd =>
        hd.level == 1 && containsSub (lowerStr p.keyword.data) (lowerStr hd.text.data))) = true ↔
      ∃ hd ∈ p.headings, hd.level = 1
    rw [hklow]
    simp [containsSub_nil_left, List.any_eq_true]
  · intro ht
    refine ⟨hdens ht, ?_⟩
    show checkKeywordDensity p.content p.keyword = false
    rw [h]
    simp only [checkKeywordDensity, hdens ht]
    norm_num [TARGET_KEYWORD_DENSITY_max]

/-- Claim C10 witness at a concrete artifact with empty keyword, one H1
and two content tokens. -/
theorem empty_keyword_behavior_witness :
    (analyzeSEO demoEmptyKw).checks.keywordInTitle = true ∧
    (analyzeSEO demoEmptyKw).checks.keywordInMetaDescription = true ∧
    (analyzeSEO demoEmptyKw).checks.keywordInFirstParagraph = true ∧
    ((analyzeSEO demoEmptyKw).checks.keywordInH1 = true ↔
      ∃ hd ∈ demoEmptyKw.headings, hd.level = 1) ∧
    (tokens (lowerStr demoEmptyKw.content.data) ≠ [] →
      calculateKeywordDensity demoEmptyKw.content "" = 100 ∧
      (analyzeSEO demoEmptyKw).checks.keywordDensity = false) :=
  empty_keyword_behavior demoEmptyKw rfl

/-! ## End-to-end scenarios -/

lemma demo_density : calculateKeywordDensity demoContent "seo" = 2 := by
  have ht : (tokens (lowerStr demoContent.data)).length = 50 := by decide
  have hm : ((tokens (lowerStr demoContent.data)).filter
      (fun w => containsSub (lowerStr ("seo" : String).data) w)).length = 1 := by decide
  simp only [calculateKeywordDensity, hm, ht]
  norm_num [jsRound]

lemma demo_density_check : checkKeywordDensity demoContent "seo" = true := by
  simp only [checkKeywordDensity, demo_density]
  norm_num [TARGET_KEYWORD_DENSITY_min, TARGET_KEYWORD_DENSITY_max]

lemma demo_checks_A : (analyzeSEO demoParamsA).checks =
    ⟨true, true, true, true, true, true, true, true,
     true, true, true, true, true, true, true, true⟩ := by
  have e1 : (analyzeSEO demoParamsA).checks.keywordDensity = true := demo_density_check
  have e2 : (analyzeSEO demoParamsA).checks.keywordInTitle = true := by decide
  have e3 : (analyzeSEO demoParamsA).checks.keywordInMetaDescription = true := by decide
  have e4 : (analyzeSEO demoParamsA).checks.keywordInH1 = true := by decide
  have e5 : (analyzeSEO demoParamsA).checks.keywordInFirstParagraph = true := by decide
  have e6 : (analyzeSEO demoParamsA).checks.titleLength = true := by decide
  have e7 : (analyzeSEO demoParamsA).checks.metaDescriptionLength = true := by decide
  have e8 : (analyzeSEO demoParamsA).checks.headingStructure = true := by decide
  have e9 : (analyzeSEO demoParamsA).checks.internalLinkCount = true := by decide
  have e10 : (analyzeSEO demoParamsA).checks.externalLinkCount = true := by decide
  have e11 : (analyzeSEO demoParamsA).checks.wordCount = true := by decide
  have e12 : (analyzeSEO demoParamsA).checks.readabilityScore = true := by decide
  have e13 : (analyzeSEO demoParamsA).checks.hasFAQs = true := by decide
  have e14 : (analyzeSEO demoParamsA).checks.hasCallToAction = true := by decide
  have e15 : (analyzeSEO demoParamsA).checks.hasImages = true := by decide
  have e16 : (analyzeSEO demoParamsA).checks.imageAltTags = true := by decide
  rcases hx : (analyzeSEO demoParamsA).checks with
    ⟨f1, f2, f3, f4, f5, f6, f7, f8, f9, f10, f11, f12, f13, f14, f15, f16⟩
  rw [hx] at e1 e2 e3 e4 e5 e6 e7 e8 e9 e10 e11 e12 e13 e14 e15 e16
  dsimp only at e1 e2 e3 e4 e5 e6 e7 e8 e9 e10 e11 e12 e13 e14 e15 e16
  rw [e1, e2, e3, e4, e5, e6, e7, e8, e9, e10, e11, e12, e13, e14, e15, e16]

lemma demo_checks_B : (analyzeSEO demoParamsB).checks =
    ⟨true, true, true, true, true, true, true, true,
     true, true, false, true, false, true, true, true⟩ := by
  have e1 : (analyzeSEO demoParamsB).checks.keywordDensity = true := demo_density_check
  have e2 : (analyzeSEO demoParamsB).checks.keywordInTitle = true := by decide
  have e3 : (analyzeSEO demoParamsB).checks.keywordInMetaDescription = true := by decide
  have e4 : (analyzeSEO demoParamsB).checks.keywordInH1 = true := by decide
  have e5 : (analyzeSEO demoParamsB).checks.keywordInFirstParagraph = true := by decide
  have e6 : (analyzeSEO demoParamsB).checks.titleLength = true := by decide
  have e7 : (analyzeSEO demoParamsB).checks.metaDescriptionLength = true := by decide
  have e8 : (analyzeSEO demoParamsB).checks.headingStructure = true := by decide
  have e9 : (analyzeSEO demoParamsB).checks.internalLinkCount = true := by decide
  have e10 : (analyzeSEO demoParamsB).checks.externalLinkCount = true := by decide
  have e11 : (analyzeSEO demoParamsB).checks.wordCount = false := by decide
  have e12 : (analyzeSEO demoParamsB).checks.readabilityScore = true := by decide
  have e13 : (analyzeSEO demoParamsB).checks.hasFAQs = false := by decide
  have e14 : (analyzeSEO demoParamsB).checks.hasCallToAction = true := by decide
  have e15 : (analyzeSEO demoParamsB).checks.hasImages = true := by decide
  have e16 : (analyzeSEO demoParamsB).checks.imageAltTags = true := by decide
  rcases hx : (analyzeSEO demoParamsB).checks with
    ⟨f1, f2, f3, f4, f5, f6, f7, f8, f9, f10, f11, f12, f13, f14, f15, f16⟩
  rw [hx] at e1 e2 e3 e4 e5 e6 e7 e8 e9 e10 e11 e12 e13 e14 e15 e16
  dsimp only at e1 e2 e3 e4 e5 e6 e7 e8 e9 e10 e11 e12 e13 e14 e15 e16
  rw [e1, e2, e3, e4, e5, e6, e7, e8, e9, e10, e11, e12, e13, e14, e15, e16]

/-- Claim C6: the artifact with title length 45, meta-description length
140, 2200 words, 2 % keyword density, 5 internal and 4 external links,
readability 70, 3 FAQs, a call-to-action, one Markdown image and a valid
H1→H2 structure scores 100 with no recommendations; the same artifact
with 500 words and no FAQs fails exactly the `wordCount` and `hasFAQs`
checks, scoring `round(100*14/16) = 88` with exactly those two messages in
declaration order. -/
theorem end_to_end_scenarios :
    demoTitle.length = 45 ∧
    demoMeta.length = 140 ∧
    (analyzeSEO demoParamsA).keywordDensity = 2 ∧
    checksList (analyzeSEO demoParamsA).checks =
      [true, true, true, true, true, true, true, true,
       true, true, true, true, true, true, true, true] ∧
    (analyzeSEO demoParamsA).score = 100 ∧
    (analyzeSEO demoParamsA).recommendations = [] ∧
    checksList (analyzeSEO demoParamsB).checks =
      [true, true, true, true, true, true, true, true,
       true, true, false, true, false, true, true, true] ∧
    (analyzeSEO demoParamsB).score = 88 ∧
    (analyzeSEO demoParamsB).recommendations = [msgWordCount, msgFAQ] := by
  refine ⟨by decide, by decide, demo_density, ?_, ?_, ?_, ?_, ?_, ?_⟩
  · rw [demo_checks_A]
    rfl
  · have hp : passedCount (analyzeSEO demoParamsA).checks = 16 := by
      unfold passedCount
      rw [demo_checks_A]
      rfl
    have hs : (analyzeSEO demoParamsA).score =
        calculateSEOScore (analyzeSEO demoParamsA).checks := rfl
    rw [hs, calculateSEOScore_eq, hp]
    norm_num [jsRound]
  · have hr : (analyzeSEO demoParamsA).recommendations =
        generateRecommendations (analyzeSEO demoParamsA).checks
          (analyzeSEO demoParamsA).keywordDensity demoParamsA.keyword := rfl
    rw [hr, demo_checks_A]
    rfl
  · rw [demo_checks_B]
    rfl
  · have hp : passedCount (analyzeSEO demoParamsB).checks = 14 := by
      unfold passedCount
      rw [demo_checks_B]
      rfl
    have hs : (analyzeSEO demoParamsB).score =
        calculateSEOScore (analyzeSEO demoParamsB).checks := rfl
    rw [hs, calculateSEOScore_eq, hp]
    norm_num [jsRound]
  · have hr : (analyzeSEO demoParamsB).recommendations =
        generateRecommendations (analyzeSEO demoParamsB).checks
          (analyzeSEO demoParamsB).keywordDensity demoParamsB.keyword := rfl
    rw [hr, demo_checks_B]
    rfl

end BlogAuto
